import Mathlib

/-!
Verification of the FerretDB operation-mode dispatcher and dual-backend
diff engine, and of the `mongoHandler` slog handler.

The dispatcher/diff engine itself is described by the repository's
documentation (`operation-modes` page); the `mongoHandler` code is taken
from `internal/util/logging/mongo_handler.go`.
-/

namespace FerretDB

/-! ## Line-level edit scripts (BodyDiffer / HeaderDiffer core)

Modelled from the spec: the body differ computes "the minimal edit script
between the two line sequences using a standard longest-common-subsequence
diff (Myers' algorithm or equivalent)".  We embed the classic
LCS-length-guided line diff. -/

/-- One step of a line-level edit script: keep a common line, delete a line
of the left sequence, or insert a line of the right sequence. -/
inductive Edit where
  | keep (l : String)
  | del (l : String)
  | ins (l : String)
deriving DecidableEq, Repr

/-- Length of a longest common subsequence of two line sequences. -/
def lcsLen : List String → List String → Nat
  | [], _ => 0
  | _ :: _, [] => 0
  | a :: as, b :: bs =>
    if a = b then lcsLen as bs + 1
    else max (lcsLen as (b :: bs)) (lcsLen (a :: as) bs)
termination_by xs ys => xs.length + ys.length

/-- Modelled from the spec: the LCS line diff (BodyDiffer §4.4, also used on
the single-line header renderings, §4.3).  Produces the edit script between
two line sequences, guided by LCS lengths. -/
def diffLines : List String → List String → List Edit
  | [], [] => []
  | [], b :: bs => .ins b :: diffLines [] bs
  | a :: as, [] => .del a :: diffLines as []
  | a :: as, b :: bs =>
    if a = b then .keep a :: diffLines as bs
    else if lcsLen as (b :: bs) ≥ lcsLen (a :: as) bs
    then .del a :: diffLines as (b :: bs)
    else .ins b :: diffLines (a :: as) bs
termination_by xs ys => xs.length + ys.length

/-- Apply an edit script to a source line sequence: `keep`/`del` must match
the current source line, `ins` adds a line of the target. -/
def applyEdits : List Edit → List String → Option (List String)
  | [], [] => some []
  | [], _ :: _ => none
  | .keep _ :: _, [] => none
  | .keep l :: es, x :: xs =>
    if x = l then (applyEdits es xs).map (fun r => l :: r) else none
  | .del _ :: _, [] => none
  | .del l :: es, x :: xs => if x = l then applyEdits es xs else none
  | .ins l :: es, xs => (applyEdits es xs).map (fun r => l :: r)

/-- An edit script is empty when it records no insertion and no deletion. -/
def scriptEmpty (es : List Edit) : Bool :=
  es.all fun e => match e with
    | .keep _ => true
    | _ => false

/-! ## Decimal rendering of numbers -/

/-- The decimal digit character for a digit value (values ≥ 9 clamp to '9';
only ever applied to `n % 10`). -/
def digitChar : Nat → Char
  | 0 => '0'
  | 1 => '1'
  | 2 => '2'
  | 3 => '3'
  | 4 => '4'
  | 5 => '5'
  | 6 => '6'
  | 7 => '7'
  | 8 => '8'
  | _ => '9'

/-- Decimal digit characters of a natural number, most significant first
(empty for 0). -/
def natDigits (n : Nat) : List Char :=
  if h : n = 0 then []
  else natDigits (n / 10) ++ [digitChar (n % 10)]
termination_by n
decreasing_by exact Nat.div_lt_self (Nat.pos_of_ne_zero h) (by omega)

/-- Decimal literal of a natural number. -/
def natStr (n : Nat) : String :=
  if n = 0 then "0" else String.mk (natDigits n)

/-- Decimal literal of an integer, with a leading minus sign when negative. -/
def intStr (i : Int) : String :=
  if i < 0 then "-" ++ natStr i.natAbs else natStr i.natAbs

/-! ## Wire headers and the header line rendering (HeaderDiffer) -/

/-- Symbolic opcode names of wire messages (the protocol codec is external;
the diff engine only renders the symbolic name). -/
inductive OpCode where
  | opMsg
  | opQuery
  | opReply
  | opUpdate
  | opInsert
  | opGetMore
  | opDelete
  | opKillCursors
  | opCompressed
deriving DecidableEq, Repr

/-- The symbolic name of an opcode as printed in the header line. -/
def OpCode.name : OpCode → String
  | .opMsg => "OP_MSG"
  | .opQuery => "OP_QUERY"
  | .opReply => "OP_REPLY"
  | .opUpdate => "OP_UPDATE"
  | .opInsert => "OP_INSERT"
  | .opGetMore => "OP_GET_MORE"
  | .opDelete => "OP_DELETE"
  | .opKillCursors => "OP_KILL_CURSORS"
  | .opCompressed => "OP_COMPRESSED"

/-- A wire message header: `{length: uint32, requestID: int32,
responseTo: int32, opCode: symbolic name}` (§3). -/
structure WireHeader where
  length : Nat
  requestID : Int
  responseTo : Int
  opCode : OpCode
deriving DecidableEq, Repr

/-- A run of `n` space characters. -/
def sp (n : Nat) : String := String.mk (List.replicate n ' ')

/-- Right-align `s` in a field of width `w`, always emitting at least one
space before it. -/
def padTo (w : Nat) (s : String) : String :=
  sp (if s.length < w then w - s.length else 1) ++ s

/-- Modelled from the spec: the single fixed-form header line
`length: N, id: N, response_to: N, opcode: NAME` (§4.3, §6), with the
right-aligned numeric fields shown in the documented example diff output. -/
def renderHeader (h : WireHeader) : String :=
  "length:" ++ padTo 6 (natStr h.length) ++
  ", id:" ++ padTo 5 (intStr h.requestID) ++
  ", response_to:" ++ padTo 5 (intStr h.responseTo) ++
  ", opcode: " ++ h.opCode.name

/-- A line of the fixed header grammar
`length: <uint>, id: <int>, response_to: <int>, opcode: <OPCODE_NAME>`:
the four labelled fields in this order, each label followed by one or more
spaces and the decimal literal of the field value. -/
def headerGrammarLine (len : Nat) (rid rto : Int) (op : OpCode)
    (p1 p2 p3 : Nat) : String :=
  "length:" ++ sp p1 ++ natStr len ++
  ", id:" ++ sp p2 ++ intStr rid ++
  ", response_to:" ++ sp p3 ++ intStr rto ++
  ", opcode: " ++ op.name

/-- Returns `true` when the string contains no newline character. -/
def oneLine (s : String) : Bool := s.data.all fun c => c ≠ '\n'

/-! ## Documents and their canonical pretty-printed rendering (BodyDiffer)

Modelled from the spec: a Document is an ordered mapping of field name to
typed value (§3); the body differ first produces "a canonical,
deterministic multi-line pretty-printed text rendering of each (stable key
order as stored, nested documents/arrays indented)" (§4.4). -/

mutual

/-- A BSON value: a scalar, a nested document, or an array. -/
inductive BsonValue where
  | str (s : String)
  | int (i : Int)
  | boolean (b : Bool)
  | nullV
  | doc (d : BsonDoc)
  | arr (a : BsonArr)

/-- An ordered mapping of field name to value. -/
inductive BsonDoc where
  | nil
  | cons (k : String) (v : BsonValue) (rest : BsonDoc)

/-- An ordered sequence of values. -/
inductive BsonArr where
  | nil
  | cons (v : BsonValue) (rest : BsonArr)

end

/-- Textual literal of a scalar value (composites handled by the renderer). -/
def scalarText : BsonValue → String
  | .str s => "\x22" ++ s ++ "\x22"
  | .int i => intStr i
  | .boolean b => if b then "true" else "false"
  | _ => "null"

mutual

/-- Lines of one key/value field at the given indentation. -/
def renderKV : Nat → String → BsonValue → List String
  | ind, k, .doc d =>
    (sp ind ++ "\x22" ++ k ++ "\x22: \x7b") ::
      (renderDoc (ind + 2) d ++ [sp ind ++ "\x7d,"])
  | ind, k, .arr a =>
    (sp ind ++ "\x22" ++ k ++ "\x22: [") ::
      (renderArr (ind + 2) a ++ [sp ind ++ "],"])
  | ind, k, v => [sp ind ++ "\x22" ++ k ++ "\x22: " ++ scalarText v ++ ","]

/-- Lines of a document's fields, in stored key order. -/
def renderDoc : Nat → BsonDoc → List String
  | _, .nil => []
  | ind, .cons k v rest => renderKV ind k v ++ renderDoc ind rest

/-- Lines of one array element at the given indentation. -/
def renderElem : Nat → BsonValue → List String
  | ind, .doc d =>
    (sp ind ++ "\x7b") :: (renderDoc (ind + 2) d ++ [sp ind ++ "\x7d,"])
  | ind, .arr a =>
    (sp ind ++ "[") :: (renderArr (ind + 2) a ++ [sp ind ++ "],"])
  | ind, v => [sp ind ++ scalarText v ++ ","]

/-- Lines of an array's elements, in order. -/
def renderArr : Nat → BsonArr → List String
  | _, .nil => []
  | ind, .cons v rest => renderElem ind v ++ renderArr ind rest

end

/-- The canonical multi-line rendering of a top-level document body. -/
def renderBody (b : BsonDoc) : List String :=
  "\x7b" :: (renderDoc 2 b ++ ["\x7d"])

/-! ## Responses, backends and the diff pipeline -/

/-- A transport-level failure of a backend call: the call produced no wire
response (§7: `BackendUnavailable`, `Timeout`). -/
inductive BackendError where
  | unavailable
  | timeout
deriving DecidableEq, Repr

/-- A wire response: header plus document body.  A substantive command
error is carried inside the body of a valid response (§7: `CommandError`)
and is opaque to the diff engine. -/
structure WireResponse where
  header : WireHeader
  body : BsonDoc

/-- An inbound request: header plus document body. -/
structure Request where
  header : WireHeader
  body : BsonDoc

/-- Outcome of one backend call: a wire response, or a transport error. -/
abbrev BackendResult := Except BackendError WireResponse

/-- A backend capability (§6): the primary execution pipeline or the remote
proxy, abstracted as a function from requests to outcomes. -/
abbrev Backend := Request → BackendResult

/-! ## Mode -/

/-- Modelled from the spec: the closed set of four operation modes
(`normal`, `proxy`, `diff-normal`, `diff-proxy`). -/
inductive Mode where
  | normal
  | proxy
  | diffNormal
  | diffProxy
deriving DecidableEq, Repr

/-- The two backend sides. -/
inductive Side where
  | primary
  | secondary
deriving DecidableEq, Repr

/-- Modelled from the spec: `needsSecondBackend(mode)` — true for `Proxy`,
`DiffNormal`, `DiffProxy`; false for `Normal` (§4.1). -/
def needsSecondBackend : Mode → Bool
  | .normal => false
  | .proxy => true
  | .diffNormal => true
  | .diffProxy => true

/-- Modelled from the spec: `canonicalSource(mode)` — `Normal, DiffNormal →
primary`; `Proxy, DiffProxy → secondary` (§4.1). -/
def canonicalSource : Mode → Side
  | .normal => .primary
  | .proxy => .secondary
  | .diffNormal => .primary
  | .diffProxy => .secondary

/-! ## DiffRenderer -/

/-- Render one edit script as unified-diff lines: `-`/`+` prefixes for
deleted/inserted lines, a space for context lines. -/
def renderScript (es : List Edit) : List String :=
  es.map fun e => match e with
    | .keep l => " " ++ l
    | .del l => "-" ++ l
    | .ins l => "+" ++ l

/-- The header edit script of two responses: the diff of the two single-line
header renderings (§4.3). -/
def headerDiffScript (h1 h2 : WireHeader) : List Edit :=
  diffLines [renderHeader h1] [renderHeader h2]

/-- The body edit script of two responses: the diff of the two canonical
pretty-printed renderings (§4.4). -/
def bodyDiffScript (b1 b2 : BsonDoc) : List Edit :=
  diffLines (renderBody b1) (renderBody b2)

/-- Modelled from the spec: the DiffRenderer (§4.5) — combines the header
and body edit scripts into one text block; when both scripts are empty, no
block is rendered at all. -/
def renderDiffBlock (r1 r2 : WireResponse) : Option String :=
  let hs := headerDiffScript r1.header r2.header
  let bs := bodyDiffScript r1.body r2.body
  if scriptEmpty hs && scriptEmpty bs then none
  else some (String.intercalate "\n"
    (["Header diff:", "--- res header", "+++ proxy header"] ++
      renderScript hs ++
      ["", "Body diff:", "--- res body", "+++ proxy body"] ++
      renderScript bs))

/-! ## ModeController / DualDispatcher -/

/-- Log line recording a failure of the non-selected side. -/
def errText : BackendError → String
  | .unavailable => "backend unavailable"
  | .timeout => "timeout"

/-- The observable outcome of handling one request. -/
structure DispatchOutcome where
  /-- What the caller receives: a response or an error. -/
  response : BackendResult
  /-- Whether the primary call was issued. -/
  primaryIssued : Bool
  /-- Whether the secondary (proxy) call was issued. -/
  secondaryIssued : Bool
  /-- Whether the two responses were passed to the differs. -/
  diffAttempted : Bool
  /-- The rendered diff block, when one was produced. -/
  diffBlock : Option String
  /-- Log lines emitted while handling the request. -/
  log : List String

/-- Modelled from the spec: the ModeController state machine (§4.6)
orchestrating the DualDispatcher (§4.2).  The primary call is always
issued; the secondary call is issued iff `needsSecondBackend mode`.  When
both sides produced wire responses, they are passed to the differs and a
non-empty block is logged; the response returned to the caller is the
outcome of the side selected by `canonicalSource mode`, and a failure of
the non-selected side is only logged. -/
def handleRequest (mode : Mode) (primaryB secondaryB : Backend)
    (req : Request) : DispatchOutcome :=
  let p := primaryB req
  let s? : Option BackendResult :=
    if needsSecondBackend mode then some (secondaryB req) else none
  let diffBlock : Option String :=
    match p, s? with
    | .ok pr, some (.ok sr) => renderDiffBlock pr sr
    | _, _ => none
  let attempted : Bool :=
    match p, s? with
    | .ok _, some (.ok _) => true
    | _, _ => false
  let resp : BackendResult :=
    match canonicalSource mode, s? with
    | .primary, _ => p
    | .secondary, some s => s
    | .secondary, none => p
  let failLog : List String :=
    match canonicalSource mode, p, s? with
    | .secondary, .error e, _ => ["primary error: " ++ errText e]
    | .primary, _, some (.error e) => ["secondary error: " ++ errText e]
    | _, _, _ => []
  let diffLog : List String :=
    match diffBlock with
    | some b => [b]
    | none => []
  { response := resp
    primaryIssued := true
    secondaryIssued := needsSecondBackend mode
    diffAttempted := attempted
    diffBlock := diffBlock
    log := diffLog ++ failLog }

/-- Number of backend calls issued for one request. -/
def callCount (mode : Mode) : Nat :=
  1 + (if needsSecondBackend mode then 1 else 0)

/-! ## Concrete fixtures (the documented example traffic) -/

/-- The primary header of the documented example diff. -/
def hdr0 : WireHeader := ⟨63, 4, 13, .opMsg⟩

/-- The secondary header of the documented example diff. -/
def hdr1 : WireHeader := ⟨191, 53, 13, .opMsg⟩

/-- The primary body of the documented example diff. -/
def body0 : BsonDoc :=
  .cons "you" (.str "127.0.0.1:64795") (.cons "ok" (.int 1) .nil)

/-- The secondary body of the documented example diff. -/
def body1 : BsonDoc :=
  .cons "you" (.str "192.168.65.1:21365") (.cons "ok" (.int 1) .nil)

/-- The primary response of the documented example. -/
def resp0 : WireResponse := ⟨hdr0, body0⟩

/-- The secondary response of the documented example. -/
def resp1 : WireResponse := ⟨hdr1, body1⟩

/-- A concrete request. -/
def req0 : Request := ⟨hdr0, .nil⟩

/-- A primary backend that answers with `resp0`. -/
def okPrimary : Backend := fun _ => .ok resp0

/-- A secondary backend that answers with `resp1`. -/
def okSecondary : Backend := fun _ => .ok resp1

/-- A secondary backend that answers with `resp0` (identical mirror). -/
def mirrorSecondary : Backend := fun _ => .ok resp0

/-- A backend whose call fails at the transport level. -/
def failB : Backend := fun _ => .error .unavailable

end FerretDB

namespace Logging

/-! ## The `mongoHandler` slog handler
(`internal/util/logging/mongo_handler.go`)

`slog` levels are integers; `slog.LevelInfo` is 0.  A `slog.Leveler` is
embedded as the level value it reports. -/

/-- The value of `slog.LevelInfo`. -/
def levelInfo : Int := 0

/-- The value of `slog.LevelDebug`. -/
def levelDebug : Int := -4

/-- The value of `slog.LevelError`. -/
def levelError : Int := 8

/-- Modelled from the spec: `NewHandlerOpts` (defined outside the given
sources) as used by `mongoHandler`: it carries an optional minimum level
(`opts.Level`, a `slog.Leveler` or nil). -/
structure NewHandlerOpts where
  level : Option Int

/-- A log attribute (key/value), opaque to the handlers. -/
structure Attr where
  key : String
  value : String
deriving DecidableEq, Repr

/-- The standard-library JSON handler (external to the repository),
embedded by its observable state: its own configured minimum level, its
accumulated attributes and group stack. -/
structure JsonHandler where
  level : Option Int
  attrs : List Attr
  groups : List String

/-- Behaviour of `slog.JSONHandler.Enabled`: compares against its own configured level,
defaulting to `LevelInfo`. -/
def JsonHandler.enabledAt (j : JsonHandler) (l : Int) : Bool :=
  decide (j.level.getD levelInfo ≤ l)

/-- Behaviour of `slog.JSONHandler.WithAttrs`. -/
def JsonHandler.withAttrs (j : JsonHandler) (as : List Attr) : JsonHandler :=
  { j with attrs := j.attrs ++ as }

/-- Behaviour of `slog.JSONHandler.WithGroup`. -/
def JsonHandler.withGroup (j : JsonHandler) (g : String) : JsonHandler :=
  { j with groups := j.groups ++ [g] }

/-- The `mongoHandler` struct: wraps `opts` and a JSON handler
(`mongo_handler.go` lines 24–28). -/
structure MongoHandler where
  opts : NewHandlerOpts
  jsonHandler : JsonHandler

/-- Embeds `mongoHandler.Enabled` (`mongo_handler.go` lines 34–41): the minimum
level is `h.opts.Level` when non-nil, `slog.LevelInfo` otherwise; the
record level must be at least the minimum. -/
def MongoHandler.enabledAt (h : MongoHandler) (l : Int) : Bool :=
  let minLevel : Int :=
    match h.opts.level with
    | some lv => lv
    | none => levelInfo
  decide (minLevel ≤ l)

/-- An `slog.Handler` value reachable from this code: a `mongoHandler` or a
JSON handler. -/
inductive Handler where
  | mongo (h : MongoHandler)
  | json (j : JsonHandler)

/-- Method `Enabled` dispatched on the dynamic handler. -/
def Handler.enabledAt : Handler → Int → Bool
  | .mongo h, l => h.enabledAt l
  | .json j, l => j.enabledAt l

/-- Method `WithAttrs`: `mongoHandler.WithAttrs` returns
`h.jsonHandler.WithAttrs(attrs)` (`mongo_handler.go` lines 47–49). -/
def Handler.withAttrs : Handler → List Attr → Handler
  | .mongo h, as => .json (h.jsonHandler.withAttrs as)
  | .json j, as => .json (j.withAttrs as)

/-- Method `WithGroup`: `mongoHandler.WithGroup` returns
`h.jsonHandler.WithGroup(name)` (`mongo_handler.go` lines 51–53). -/
def Handler.withGroup : Handler → String → Handler
  | .mongo h, g => .json (h.jsonHandler.withGroup g)
  | .json j, g => .json (j.withGroup g)

/-- A concrete `mongoHandler` with nil `opts.Level` wrapping a default JSON
handler. -/
def mh0 : MongoHandler := ⟨⟨none⟩, ⟨none, [], []⟩⟩

/-- A concrete `mongoHandler` whose `opts.Level` is `LevelError`, wrapping a
default (Info-level) JSON handler. -/
def mhErr : MongoHandler := ⟨⟨some levelError⟩, ⟨none, [], []⟩⟩

end Logging

namespace FerretDB

/-- Applying the edit script produced by `diffLines a b` to `a` reproduces
`b` exactly, line for line. -/
theorem applyEdits_diffLines (a b : List String) :
    applyEdits (diffLines a b) a = some b := by
  induction a, b using diffLines.induct with
  | case1 => simp [diffLines, applyEdits]
  | case2 b bs ih => simp [diffLines, applyEdits, ih]
  | case3 a as ih => simp [diffLines, applyEdits, ih]
  | case4 as b bs ih => simp [diffLines, applyEdits, ih]
  | case5 a as b bs hab hge ih => simp [diffLines, applyEdits, hab, hge, ih]
  | case6 a as b bs hab hlt ih => simp [diffLines, applyEdits, hab, hlt, ih]

/-- Diffing a line sequence against itself keeps every line. -/
theorem diffLines_self (a : List String) :
    diffLines a a = a.map .keep := by
  induction a with
  | nil => simp [diffLines]
  | cons x xs ih => simp [diffLines, ih]

/-- The self-diff is the empty script. -/
theorem scriptEmpty_diffLines_self (a : List String) :
    scriptEmpty (diffLines a a) = true := by
  rw [diffLines_self]
  induction a with
  | nil => rfl
  | cons x xs ih => simp_all [scriptEmpty]

/-- The diff renderer produces no block for two structurally identical
responses. -/
theorem renderDiffBlock_self (r1 r2 : WireResponse)
    (hh : r1.header = r2.header) (hb : r1.body = r2.body) :
    renderDiffBlock r1 r2 = none := by
  have h1 : scriptEmpty (headerDiffScript r1.header r2.header) = true := by
    rw [hh]
    simpa [headerDiffScript] using
      scriptEmpty_diffLines_self [renderHeader r2.header]
  have h2 : scriptEmpty (bodyDiffScript r1.body r2.body) = true := by
    rw [hb]
    simpa [bodyDiffScript] using
      scriptEmpty_diffLines_self (renderBody r2.body)
  simp [renderDiffBlock, h1, h2]

/-- C5: applying the edit script of `diff(A, B)` to the canonical rendering
of `A` reproduces the canonical rendering of `B` exactly, line for line;
and when the two renderings are identical the script is empty. -/
theorem bodyDiff_patch_roundtrip (A B : BsonDoc) :
    applyEdits (bodyDiffScript A B) (renderBody A) = some (renderBody B) ∧
    (renderBody A = renderBody B → scriptEmpty (bodyDiffScript A B) = true) := by
  constructor
  · exact applyEdits_diffLines (renderBody A) (renderBody B)
  · intro h
    rw [bodyDiffScript, h]
    exact scriptEmpty_diffLines_self (renderBody B)

/-- Witness for C5 at the concrete example body. -/
theorem bodyDiff_patch_roundtrip_witness :
    applyEdits (bodyDiffScript body0 body0) (renderBody body0) =
      some (renderBody body0) ∧
    scriptEmpty (bodyDiffScript body0 body0) = true :=
  ⟨(bodyDiff_patch_roundtrip body0 body0).1,
   (bodyDiff_patch_roundtrip body0 body0).2 rfl⟩

/-- C4: when the two backend responses have structurally identical headers
and bodies, both diffs are empty, no diff block is rendered, and no log
entry at all is emitted for the request. -/
theorem identical_responses_no_diff_no_log (mode : Mode)
    (p s : Backend) (req : Request) (r1 r2 : WireResponse)
    (hp : p req = .ok r1) (hs : s req = .ok r2)
    (hh : r1.header = r2.header) (hb : r1.body = r2.body) :
    scriptEmpty (headerDiffScript r1.header r2.header) = true ∧
    scriptEmpty (bodyDiffScript r1.body r2.body) = true ∧
    (handleRequest mode p s req).diffBlock = none ∧
    (handleRequest mode p s req).log = [] := by
  have h1 : scriptEmpty (headerDiffScript r1.header r2.header) = true := by
    rw [hh]
    simpa [headerDiffScript] using
      scriptEmpty_diffLines_self [renderHeader r2.header]
  have h2 : scriptEmpty (bodyDiffScript r1.body r2.body) = true := by
    rw [hb]
    simpa [bodyDiffScript] using
      scriptEmpty_diffLines_self (renderBody r2.body)
  have hblock : renderDiffBlock r1 r2 = none := renderDiffBlock_self r1 r2 hh hb
  refine ⟨h1, h2, ?_, ?_⟩ <;>
    cases mode <;>
      simp [handleRequest, needsSecondBackend, canonicalSource, hp, hs, hblock]

/-- Witness for C4: identical mirrored traffic in `diff-normal` mode. -/
theorem identical_responses_no_diff_no_log_witness :
    scriptEmpty (headerDiffScript resp0.header resp0.header) = true ∧
    scriptEmpty (bodyDiffScript resp0.body resp0.body) = true ∧
    (handleRequest .diffNormal okPrimary mirrorSecondary req0).diffBlock = none ∧
    (handleRequest .diffNormal okPrimary mirrorSecondary req0).log = [] :=
  identical_responses_no_diff_no_log .diffNormal okPrimary mirrorSecondary req0
    resp0 resp0 rfl rfl rfl rfl

/-- C1: the response returned to the caller is the canonical side's
outcome, verbatim: modes `Normal` and `DiffNormal` return the primary
backend's outcome, modes `Proxy` and `DiffProxy` the secondary's. -/
theorem response_from_canonical_source (mode : Mode) (p s : Backend)
    (req : Request) :
    ((mode = .normal ∨ mode = .diffNormal) →
      (handleRequest mode p s req).response = p req) ∧
    ((mode = .proxy ∨ mode = .diffProxy) →
      (handleRequest mode p s req).response = s req) ∧
    (canonicalSource mode = .primary →
      (handleRequest mode p s req).response = p req) ∧
    (canonicalSource mode = .secondary →
      (handleRequest mode p s req).response = s req) := by
  cases mode <;>
    simp [handleRequest, canonicalSource, needsSecondBackend]

/-- Witness for C1: in `diff-proxy` mode the caller receives the secondary
backend's response. -/
theorem response_from_canonical_source_witness :
    (handleRequest .diffProxy okPrimary okSecondary req0).response =
      okSecondary req0 :=
  (response_from_canonical_source .diffProxy okPrimary okSecondary req0).2.1
    (Or.inr rfl)

/-- C2: only the side selected by `canonicalSource(mode)` can produce a
caller-visible error; the non-selected side's outcome never changes the
returned response or error, and its failure is only logged. -/
theorem selected_side_error_propagation (mode : Mode)
    (p p' s s' : Backend) (req : Request) (e : BackendError) :
    (canonicalSource mode = .primary → p req = .error e →
      (handleRequest mode p s req).response = .error e) ∧
    (canonicalSource mode = .secondary → s req = .error e →
      (handleRequest mode p s req).response = .error e) ∧
    (canonicalSource mode = .primary →
      (handleRequest mode p s req).response =
        (handleRequest mode p s' req).response) ∧
    (canonicalSource mode = .secondary →
      (handleRequest mode p s req).response =
        (handleRequest mode p' s req).response) ∧
    (canonicalSource mode = .primary → needsSecondBackend mode = true →
      s req = .error e →
      ("secondary error: " ++ errText e) ∈ (handleRequest mode p s req).log) ∧
    (canonicalSource mode = .secondary → p req = .error e →
      ("primary error: " ++ errText e) ∈ (handleRequest mode p s req).log) := by
  refine ⟨fun hm hp => ?_, fun hm hs => ?_, fun hm => ?_, fun hm => ?_,
    fun hm hnb hs => ?_, fun hm hp => ?_⟩ <;>
    cases mode <;>
      simp_all [handleRequest, canonicalSource, needsSecondBackend]

/-- Witness for C2: in `diff-proxy` mode a failing secondary propagates its
error to the caller. -/
theorem selected_side_error_propagation_witness :
    (handleRequest .diffProxy okPrimary failB req0).response =
      .error .unavailable :=
  (selected_side_error_propagation .diffProxy okPrimary okPrimary failB failB
    req0 .unavailable).2.1 rfl rfl

/-- C3: the secondary call is issued iff the mode is `Proxy`, `DiffNormal`
or `DiffProxy`; in mode `Normal` exactly one call — the primary — is
issued. -/
theorem secondary_issued_iff (mode : Mode) (p s : Backend) (req : Request) :
    ((handleRequest mode p s req).secondaryIssued = true ↔
      (mode = .proxy ∨ mode = .diffNormal ∨ mode = .diffProxy)) ∧
    (mode = .normal →
      (handleRequest mode p s req).primaryIssued = true ∧
      (handleRequest mode p s req).secondaryIssued = false ∧
      callCount mode = 1) := by
  cases mode <;>
    simp [handleRequest, needsSecondBackend, callCount]

/-- Witness for C3 in mode `normal`: one call, the primary. -/
theorem secondary_issued_iff_witness :
    (handleRequest .normal okPrimary okSecondary req0).primaryIssued = true ∧
    (handleRequest .normal okPrimary okSecondary req0).secondaryIssued = false ∧
    callCount .normal = 1 :=
  (secondary_issued_iff .normal okPrimary okSecondary req0).2 rfl

/-- C6 counterexample: in mode `diff-normal` with a failing primary and a
healthy secondary, diffing is skipped although the secondary call was
neither skipped nor failed — refuting "diffing is skipped exactly when the
secondary call was skipped (mode Normal) or failed to even start". -/
theorem diff_skip_exactness_counterexample :
    (handleRequest .diffNormal failB okSecondary req0).diffAttempted = false ∧
    (handleRequest .diffNormal failB okSecondary req0).secondaryIssued = true ∧
    okSecondary req0 = .ok resp1 :=
  ⟨rfl, rfl, rfl⟩

/-- C6 (amended): the two responses are passed to the differs exactly when
the secondary call was issued and both sides produced wire responses
(regardless of any command error carried inside them); the resulting block
is emitted (logged) when non-empty. -/
theorem diff_attempt_conditions (mode : Mode) (p s : Backend)
    (req : Request) :
    ((handleRequest mode p s req).diffAttempted = true ↔
      needsSecondBackend mode = true ∧
      (∃ pr, p req = .ok pr) ∧ (∃ sr, s req = .ok sr)) ∧
    (∀ pr sr, p req = .ok pr → s req = .ok sr →
      needsSecondBackend mode = true →
      (handleRequest mode p s req).diffBlock = renderDiffBlock pr sr ∧
      (∀ blk, renderDiffBlock pr sr = some blk →
        blk ∈ (handleRequest mode p s req).log)) := by
  constructor
  · cases mode <;>
      rcases hp : p req with e | pr <;> rcases hs : s req with e' | sr <;>
        simp [handleRequest, needsSecondBackend, hp, hs]
  · intro pr sr hp hs hnb
    cases mode <;> simp_all [handleRequest, needsSecondBackend, canonicalSource]

/-- Witness for C6 (amended): a complete pair in `diff-proxy` mode is passed
to the differs. -/
theorem diff_attempt_conditions_witness :
    (handleRequest .diffProxy okPrimary okSecondary req0).diffBlock =
      renderDiffBlock resp0 resp1 :=
  ((diff_attempt_conditions .diffProxy okPrimary okSecondary req0).2
    resp0 resp1 rfl rfl rfl).1

/-- No decimal digit character is a newline. -/
theorem digitChar_ne_newline (r : Nat) : digitChar r ≠ '\n' := by
  unfold digitChar; split <;> decide

/-- Decimal digit lists contain no newline. -/
theorem natDigits_all_ne_newline (n : Nat) :
    (natDigits n).all (fun c => decide (c ≠ '\n')) = true := by
  induction n using natDigits.induct with
  | case1 => rw [natDigits]; simp
  | case2 x h ih =>
    rw [natDigits, dif_neg h, List.all_append, Bool.and_eq_true]
    exact ⟨ih, by simp [digitChar_ne_newline]⟩

/-- The predicate `oneLine` distributes over string concatenation. -/
theorem oneLine_append (a b : String) :
    oneLine (a ++ b) = (oneLine a && oneLine b) := by
  simp [oneLine, String.data_append]

/-- Space runs contain no newline. -/
theorem oneLine_sp (n : Nat) : oneLine (sp n) = true := by
  simp [oneLine, sp, List.all_eq_true, List.mem_replicate]

/-- Padded fields contain no newline when the payload does not. -/
theorem oneLine_padTo (w : Nat) (s : String) (hs : oneLine s = true) :
    oneLine (padTo w s) = true := by
  rw [padTo, oneLine_append, oneLine_sp, hs]
  rfl

/-- Decimal literals of naturals contain no newline. -/
theorem oneLine_natStr (n : Nat) : oneLine (natStr n) = true := by
  rw [natStr]; split
  · decide
  · simpa [oneLine] using natDigits_all_ne_newline n

/-- Decimal literals of integers contain no newline. -/
theorem oneLine_intStr (i : Int) : oneLine (intStr i) = true := by
  rw [intStr]; split
  · rw [oneLine_append, oneLine_natStr]; decide
  · exact oneLine_natStr _

/-- Opcode names contain no newline. -/
theorem oneLine_opName (op : OpCode) : oneLine op.name = true := by
  cases op <;> decide

/-- C8: every wire header renders as exactly one line of the fixed grammar
`length: <uint>, id: <int>, response_to: <int>, opcode: <OPCODE_NAME>`
(labels and field order fixed, each label followed by spaces and the
decimal field value), this rendering is the input line of the header diff,
and on the documented example header it is the documented literal line. -/
theorem header_line_fixed_grammar (h1 h2 : WireHeader) :
    (∃ p1 p2 p3, 1 ≤ p1 ∧ 1 ≤ p2 ∧ 1 ≤ p3 ∧
      renderHeader h1 =
        headerGrammarLine h1.length h1.requestID h1.responseTo h1.opCode
          p1 p2 p3) ∧
    oneLine (renderHeader h1) = true ∧
    headerDiffScript h1 h2 = diffLines [renderHeader h1] [renderHeader h2] ∧
    renderHeader hdr0 =
      "length:    63, id:    4, response_to:   13, opcode: OP_MSG" := by
  refine ⟨⟨(if (natStr h1.length).length < 6 then
      6 - (natStr h1.length).length else 1),
    (if (intStr h1.requestID).length < 5 then
      5 - (intStr h1.requestID).length else 1),
    (if (intStr h1.responseTo).length < 5 then
      5 - (intStr h1.responseTo).length else 1),
    ?_, ?_, ?_, ?_⟩, ?_, rfl, ?_⟩
  · split <;> omega
  · split <;> omega
  · split <;> omega
  · simp [renderHeader, headerGrammarLine, padTo, String.append_assoc]
  · simp [renderHeader, oneLine_append, oneLine_padTo, oneLine_natStr,
      oneLine_intStr, oneLine_opName]
    decide
  · simp [renderHeader, hdr0, padTo, natStr, natDigits, digitChar, intStr,
      sp, List.replicate, OpCode.name]

end FerretDB

namespace Logging

/-- C9: `mongoHandler.Enabled` returns true iff the record level is at
least the configured minimum — `opts.Level` when non-nil, `slog.LevelInfo`
otherwise — and its decision depends on no state other than `opts.Level`
(it is a pure function of it). -/
theorem mongoHandler_enabled_iff (h : MongoHandler) (l : Int) :
    (h.enabledAt l = true ↔
      (match h.opts.level with
        | some lv => lv
        | none => levelInfo) ≤ l) ∧
    (∀ h' : MongoHandler, h'.opts.level = h.opts.level →
      h'.enabledAt l = h.enabledAt l) := by
  constructor
  · simp [MongoHandler.enabledAt]
  · intro h' hl
    simp [MongoHandler.enabledAt, hl]

/-- Witness for C9: with nil `opts.Level` the minimum is `LevelInfo`, so an
Info-level record is enabled, and the decision is stable under equal
`opts.Level`. -/
theorem mongoHandler_enabled_iff_witness :
    mh0.enabledAt levelInfo = true ∧
    mh0.enabledAt levelInfo = mh0.enabledAt levelInfo :=
  ⟨(mongoHandler_enabled_iff mh0 levelInfo).1.mpr (by decide),
   (mongoHandler_enabled_iff mh0 levelInfo).2 mh0 rfl⟩

/-- C10: `mongoHandler.WithAttrs`/`WithGroup` return the handler derived
from the wrapped JSON handler, not a new `mongoHandler`; the derived
handler's `Enabled` decision is the JSON handler's own, and is independent
of the `mongoHandler`'s `opts.Level`. -/
theorem mongoHandler_with_derives_json (h : MongoHandler)
    (as : List Attr) (g : String) (l : Int) :
    (Handler.mongo h).withAttrs as = .json (h.jsonHandler.withAttrs as) ∧
    (Handler.mongo h).withGroup g = .json (h.jsonHandler.withGroup g) ∧
    ((Handler.mongo h).withAttrs as).enabledAt l =
      (h.jsonHandler.withAttrs as).enabledAt l ∧
    ((Handler.mongo h).withGroup g).enabledAt l =
      (h.jsonHandler.withGroup g).enabledAt l ∧
    (∀ opts' : NewHandlerOpts,
      ((Handler.mongo ⟨opts', h.jsonHandler⟩).withAttrs as).enabledAt l =
        ((Handler.mongo h).withAttrs as).enabledAt l) ∧
    (∀ opts' : NewHandlerOpts,
      ((Handler.mongo ⟨opts', h.jsonHandler⟩).withGroup g).enabledAt l =
        ((Handler.mongo h).withGroup g).enabledAt l) :=
  ⟨rfl, rfl, rfl, rfl, fun _ => rfl, fun _ => rfl⟩

/-- The `opts.Level` minimum no longer applies after `WithAttrs`: an
Error-minimum `mongoHandler` rejects an Info record, but its derived
handler accepts it. -/
theorem mongoHandler_with_level_divergence :
    (Handler.mongo mhErr).enabledAt levelInfo = false ∧
    ((Handler.mongo mhErr).withAttrs []).enabledAt levelInfo = true := by
  constructor <;> decide

end Logging
